import Mathlib

/-!
# MinimumLatencyAudioClient

A shallow embedding of `src/Windows/MinimumLatencyAudioClient.cpp`:

* `CalculateBufferSize`, the buffer-size policy;
* the move-only handle `MinimumLatencyAudioClient` (move constructor, move
  assignment, `Uninitialise`, destructor), as operations on a memory of handle
  objects so that two references may denote the same object;
* `Start`, the start-up handshake, run against an arbitrary platform behaviour
  and returning its result together with the trace of platform calls it made.

`assert` is embedded with its debug-build meaning: an operation whose assertion
fails has no result (`none`).
-/

namespace MinimumLatency

/-! ## Machine types -/

/-- `HRESULT`: a signed status code. -/
abbrev HRESULT := Int

/-- `UINT32` values are natural numbers; no operation of the file can overflow. -/
abbrev UINT32 := Nat

/-- `DWORD`: the type of the thread's last-error value. -/
abbrev DWORD := Nat

/-- Raw pointers (`void*`, interface pointers, `WAVEFORMATEX*`) and `HANDLE`s. -/
abbrev Ptr := Nat

/-- The null pointer. -/
abbrev nullptr : Ptr := 0

/-- The macro `FAILED(hr)`: a status code signals failure when it is negative. -/
def FAILED (hr : HRESULT) : Bool := decide (hr < 0)

/-! ## Buffer-size policy -/

/-- `CalculateBufferSize`: `std::max(minPeriod, std::min(maxPeriod, 512))`. -/
def CalculateBufferSize (minPeriod maxPeriod : UINT32) : UINT32 :=
  max minPeriod (min maxPeriod 512)

/-- The policy in the words of the design: `clamp(v, lo, hi)` is `v` when it lies
in the range, the lower bound when `v` is below it and the upper bound when `v`
is above it. -/
def clamp (v lo hi : Nat) : Nat :=
  if v < lo then lo else if hi < v then hi else v

/-! ## Platform events -/

/-- The fallible calls of the start-up handshake. -/
inductive Step where
  | coInitialize
  | coCreateInstance
  | getDefaultAudioEndpoint
  | activate
  | getMixFormat
  | getSharedModeEnginePeriod
  | initializeSharedAudioStream
  | avSetMmThreadCharacteristics
  | start
  deriving DecidableEq, Repr

/-- The four frame counts written by `GetSharedModeEnginePeriod`. -/
structure EnginePeriod where
  defaultPeriodInFrames : UINT32
  fundamentalPeriodInFrames : UINT32
  minPeriodInFrames : UINT32
  maxPeriodInFrames : UINT32
  deriving DecidableEq, Repr

/-- One call into the platform, with the arguments the code chose and the values
the platform gave back. `release` is `IUnknown::Release`, `coTaskMemFree` is
`CoTaskMemFree`, `coUninit` is `CoUninitialize`. -/
inductive Event where
  | coInitialize (hr : HRESULT)
  | coCreateInstance (hr : HRESULT) (pEnumerator : Ptr)
  | getDefaultAudioEndpoint (hr : HRESULT) (pDevice : Ptr)
  | activate (hr : HRESULT) (pAudioClient : Ptr)
  | getMixFormat (hr : HRESULT) (pFormat : Ptr)
  | getSharedModeEnginePeriod (pFormat : Ptr) (hr : HRESULT) (period : EnginePeriod)
  | initializeSharedAudioStream (bufferSize : UINT32) (pFormat : Ptr) (hr : HRESULT)
  | avSetMmThreadCharacteristics (hTask : Ptr)
  | start (hr : HRESULT)
  | release (p : Ptr)
  | coTaskMemFree (p : Ptr)
  | coUninit
  deriving DecidableEq, Repr

/-- The handshake step an event is a call of, if it is one. -/
def Event.step : Event → Option Step
  | .coInitialize _ => some .coInitialize
  | .coCreateInstance _ _ => some .coCreateInstance
  | .getDefaultAudioEndpoint _ _ => some .getDefaultAudioEndpoint
  | .activate _ _ => some .activate
  | .getMixFormat _ _ => some .getMixFormat
  | .getSharedModeEnginePeriod _ _ _ => some .getSharedModeEnginePeriod
  | .initializeSharedAudioStream _ _ _ => some .initializeSharedAudioStream
  | .avSetMmThreadCharacteristics _ => some .avSetMmThreadCharacteristics
  | .start _ => some .start
  | .release _ => none
  | .coTaskMemFree _ => none
  | .coUninit => none

/-- Whether the answer recorded in a call signals failure: a failing `HRESULT`, or a
null task handle for the thread-characteristics request. Releasing and freeing
give no answer. -/
def Event.failed : Event → Bool
  | .coInitialize hr => FAILED hr
  | .coCreateInstance hr _ => FAILED hr
  | .getDefaultAudioEndpoint hr _ => FAILED hr
  | .activate hr _ => FAILED hr
  | .getMixFormat hr _ => FAILED hr
  | .getSharedModeEnginePeriod _ hr _ => FAILED hr
  | .initializeSharedAudioStream _ _ hr => FAILED hr
  | .avSetMmThreadCharacteristics hTask => decide (hTask = nullptr)
  | .start hr => FAILED hr
  | .release _ => false
  | .coTaskMemFree _ => false
  | .coUninit => false

/-! ## The handle -/

/-- The data members of `MinimumLatencyAudioClient`. -/
structure MinimumLatencyAudioClient where
  m_pAudioClient : Ptr
  m_pFormat : Ptr
  deriving DecidableEq, Repr

/-- Handle objects live at addresses. -/
abbrev Addr := Nat

/-- The memory holding the handle objects, and the platform calls made so far. -/
structure Mem where
  obj : Addr → MinimumLatencyAudioClient
  trace : List Event

/-- Assignment to the member `m_pAudioClient` of the object at `a`. -/
def Mem.setAudioClient (m : Mem) (a : Addr) (v : Ptr) : Mem :=
  { m with obj := fun b => if b = a then { m.obj b with m_pAudioClient := v } else m.obj b }

/-- Assignment to the member `m_pFormat` of the object at `a`. -/
def Mem.setFormat (m : Mem) (a : Addr) (v : Ptr) : Mem :=
  { m with obj := fun b => if b = a then { m.obj b with m_pFormat := v } else m.obj b }

/-- A call into the platform is appended to the trace. -/
def Mem.emit (m : Mem) (e : Event) : Mem :=
  { m with trace := m.trace ++ [e] }

/-- The move constructor `MinimumLatencyAudioClient(MinimumLatencyAudioClient&& other)`,
building the object at `this`. -/
def moveConstruct (this other : Addr) (m : Mem) : Option Mem :=
  if (m.obj other).m_pAudioClient = nullptr then none      -- assert(other.m_pAudioClient != nullptr)
  else if (m.obj other).m_pFormat = nullptr then none      -- assert(other.m_pFormat != nullptr)
  else
    let m1 := m.setAudioClient this (m.obj other).m_pAudioClient
    let m2 := m1.setFormat this (m1.obj other).m_pFormat
    let m3 := m2.setAudioClient other nullptr
    let m4 := m3.setFormat other nullptr
    some m4

/-- The constructor `MinimumLatencyAudioClient(void* pAudioClient, void* pFormat)`. -/
def construct (pAudioClient pFormat : Ptr) : MinimumLatencyAudioClient :=
  { m_pAudioClient := pAudioClient, m_pFormat := pFormat }

/-- The member function `Uninitialise`, called on the object at `this`. -/
def Uninitialise (this : Addr) (m : Mem) : Option Mem :=
  if (m.obj this).m_pAudioClient = nullptr then
    if (m.obj this).m_pFormat = nullptr then some m        -- assert(m_pFormat == nullptr); return
    else none
  else if (m.obj this).m_pFormat = nullptr then none       -- assert(m_pFormat != nullptr)
  else
    let m1 := m.emit (.release (m.obj this).m_pAudioClient)
    let m2 := m1.setAudioClient this nullptr
    let m3 := m2.emit (.coTaskMemFree (m2.obj this).m_pFormat)
    let m4 := m3.setFormat this nullptr
    some m4

/-- The destructor `~MinimumLatencyAudioClient`: it calls `Uninitialise`. -/
def destructor (this : Addr) (m : Mem) : Option Mem :=
  Uninitialise this m

/-- The move assignment `operator=(MinimumLatencyAudioClient&& rhs)` on the object at
`this`; `this` and `rhs` may be the same object. -/
def operatorAssign (this rhs : Addr) (m : Mem) : Option Mem :=
  if (m.obj rhs).m_pAudioClient = nullptr then none        -- assert(rhs.m_pAudioClient != nullptr)
  else if (m.obj rhs).m_pFormat = nullptr then none        -- assert(rhs.m_pFormat != nullptr)
  else
    match Uninitialise this m with
    | none => none
    | some m1 =>
      let m2 := m1.setAudioClient this (m1.obj rhs).m_pAudioClient
      let m3 := m2.setFormat this (m2.obj rhs).m_pFormat
      let m4 := m3.setAudioClient rhs nullptr
      let m5 := m4.setFormat rhs nullptr
      some m5

/-- A handle holds both resources. -/
def MinimumLatencyAudioClient.full (h : MinimumLatencyAudioClient) : Prop :=
  h.m_pAudioClient ≠ nullptr ∧ h.m_pFormat ≠ nullptr

/-- A handle holds no resource. -/
def MinimumLatencyAudioClient.empty (h : MinimumLatencyAudioClient) : Prop :=
  h.m_pAudioClient = nullptr ∧ h.m_pFormat = nullptr

/-- Paired presence: both fields non-null or both null. -/
def MinimumLatencyAudioClient.paired (h : MinimumLatencyAudioClient) : Prop :=
  h.full ∨ h.empty

instance (h : MinimumLatencyAudioClient) : Decidable h.full := by
  unfold MinimumLatencyAudioClient.full; infer_instance

instance (h : MinimumLatencyAudioClient) : Decidable h.empty := by
  unfold MinimumLatencyAudioClient.empty; infer_instance

instance (h : MinimumLatencyAudioClient) : Decidable h.paired := by
  unfold MinimumLatencyAudioClient.paired; infer_instance

/-! ## The start-up handshake -/

/-- Modelled from the spec: the class `WindowsError` is declared in a header that is
not among the sources; the design describes it as the wrapper of a native status
code. Every error site of the file builds it as `WindowsError()`, without an
argument, so the value can depend only on what the constructor observes by
itself: the state of the calling thread when it runs, recorded here as the
thread's last-error value. -/
structure WindowsError where
  lastError : DWORD
  deriving DecidableEq, Repr

/-- One behaviour of the platform during a run of `Start`: what each call hands
back. Every call is made at most once and its arguments are fixed by the earlier
answers, except the buffer size, which the answer of the stream initialisation
may depend on. `lastError s` is the thread's last-error value when the call of
step `s` has returned. -/
structure Platform where
  coInitialize : HRESULT
  coCreateInstance : HRESULT × Ptr
  getDefaultAudioEndpoint : HRESULT × Ptr
  activate : HRESULT × Ptr
  getMixFormat : HRESULT × Ptr
  getSharedModeEnginePeriod : HRESULT × EnginePeriod
  initializeSharedAudioStream : UINT32 → HRESULT
  avSetMmThreadCharacteristics : Ptr
  start : HRESULT
  lastError : Step → DWORD

/-- A run of `Start`: the returned `tl::expected` and the platform calls made. -/
structure StartRun where
  result : Except WindowsError MinimumLatencyAudioClient
  trace : List Event

/-- The destructor of a `ComPtr`: a non-null interface pointer is released. -/
def comPtrDtor (p : Ptr) : List Event :=
  if p = nullptr then [] else [.release p]

/-- Leaving the scope of `Start`: the three `ComPtr` locals are destroyed in the
reverse order of their declaration. The raw pointer `pFormat` has no destructor. -/
def scopeExit (pEnumerator pDevice pAudioClient : Ptr) : List Event :=
  comPtrDtor pAudioClient ++ comPtrDtor pDevice ++ comPtrDtor pEnumerator

/-- The statement `return tl::make_unexpected(WindowsError());` reached after the
call of step `s`, with the locals as they stand. -/
def returnUnexpected (p : Platform) (s : Step) (calls : List Event)
    (pEnumerator pDevice pAudioClient : Ptr) : StartRun :=
  { result := .error { lastError := p.lastError s }
    trace := calls ++ scopeExit pEnumerator pDevice pAudioClient }

/-- The static member function `Start`. The locals `pEnumerator`, `pDevice`,
`pAudioClient` and `pFormat` start out null and take the value the platform
writes through the out-parameter of the call; a method call through an interface
pointer is answered by the platform. On success the returned `tl::expected`
holds the handle built by the two-pointer constructor, which asserts nothing. -/
def Start (p : Platform) : StartRun :=
  -- hr = CoInitialize(NULL); CHECK_HR(hr);
  let hr := p.coInitialize
  let t1 := [Event.coInitialize hr]
  if FAILED hr then returnUnexpected p .coInitialize t1 nullptr nullptr nullptr else
  -- hr = CoCreateInstance(..., pEnumerator.GetAddressOf()); CHECK_HR(hr);
  let hr := p.coCreateInstance.1
  let pEnumerator := p.coCreateInstance.2
  let t2 := t1 ++ [Event.coCreateInstance hr pEnumerator]
  if FAILED hr then returnUnexpected p .coCreateInstance t2 pEnumerator nullptr nullptr else
  -- hr = pEnumerator->GetDefaultAudioEndpoint(eRender, eConsole, pDevice.GetAddressOf()); CHECK_HR(hr);
  let hr := p.getDefaultAudioEndpoint.1
  let pDevice := p.getDefaultAudioEndpoint.2
  let t3 := t2 ++ [Event.getDefaultAudioEndpoint hr pDevice]
  if FAILED hr then returnUnexpected p .getDefaultAudioEndpoint t3 pEnumerator pDevice nullptr else
  -- hr = pDevice->Activate(IID_IAudioClient3, ..., pAudioClient.GetAddressOf()); CHECK_HR(hr);
  let hr := p.activate.1
  let pAudioClient := p.activate.2
  let t4 := t3 ++ [Event.activate hr pAudioClient]
  if FAILED hr then returnUnexpected p .activate t4 pEnumerator pDevice pAudioClient else
  -- hr = pAudioClient->GetMixFormat(&pFormat); CHECK_HR(hr);
  let hr := p.getMixFormat.1
  let pFormat := p.getMixFormat.2
  let t5 := t4 ++ [Event.getMixFormat hr pFormat]
  if FAILED hr then returnUnexpected p .getMixFormat t5 pEnumerator pDevice pAudioClient else
  -- hr = pAudioClient->GetSharedModeEnginePeriod(pFormat, ...); CHECK_HR(hr);
  let hr := p.getSharedModeEnginePeriod.1
  let period := p.getSharedModeEnginePeriod.2
  let t6 := t5 ++ [Event.getSharedModeEnginePeriod pFormat hr period]
  if FAILED hr then
    returnUnexpected p .getSharedModeEnginePeriod t6 pEnumerator pDevice pAudioClient else
  -- UINT32 optimalBufferSize = CalculateBufferSize(minPeriodInFrames, maxPeriodInFrames);
  let optimalBufferSize := CalculateBufferSize period.minPeriodInFrames period.maxPeriodInFrames
  -- hr = pAudioClient->InitializeSharedAudioStream(0, optimalBufferSize, pFormat, NULL); CHECK_HR(hr);
  let hr := p.initializeSharedAudioStream optimalBufferSize
  let t7 := t6 ++ [Event.initializeSharedAudioStream optimalBufferSize pFormat hr]
  if FAILED hr then
    returnUnexpected p .initializeSharedAudioStream t7 pEnumerator pDevice pAudioClient else
  -- HANDLE hTask = AvSetMmThreadCharacteristics(L"Pro Audio", &taskIndex); if (!hTask) return ...;
  let hTask := p.avSetMmThreadCharacteristics
  let t8 := t7 ++ [Event.avSetMmThreadCharacteristics hTask]
  if hTask = nullptr then
    returnUnexpected p .avSetMmThreadCharacteristics t8 pEnumerator pDevice pAudioClient else
  -- hr = pAudioClient->Start(); CHECK_HR(hr);
  let hr := p.start
  let t9 := t8 ++ [Event.start hr]
  if FAILED hr then returnUnexpected p .start t9 pEnumerator pDevice pAudioClient else
  -- return MinimumLatencyAudioClient(pAudioClient.Detach(), pFormat);
  -- Detach() hands the pointer out and leaves the ComPtr null.
  { result := .ok (construct pAudioClient pFormat)
    trace := t9 ++ scopeExit pEnumerator pDevice nullptr }

/-- The order in which the handshake calls are written in `Start`. -/
def fixedOrder : List Step :=
  [.coInitialize, .coCreateInstance, .getDefaultAudioEndpoint, .activate, .getMixFormat,
   .getSharedModeEnginePeriod, .initializeSharedAudioStream, .avSetMmThreadCharacteristics,
   .start]

/-- Whether the answer of the platform to the call of step `s` signals failure: a
failing `HRESULT`, or a null task handle for the thread-characteristics request. -/
def Platform.failed (p : Platform) : Step → Bool
  | .coInitialize => FAILED p.coInitialize
  | .coCreateInstance => FAILED p.coCreateInstance.1
  | .getDefaultAudioEndpoint => FAILED p.getDefaultAudioEndpoint.1
  | .activate => FAILED p.activate.1
  | .getMixFormat => FAILED p.getMixFormat.1
  | .getSharedModeEnginePeriod => FAILED p.getSharedModeEnginePeriod.1
  | .initializeSharedAudioStream =>
      FAILED (p.initializeSharedAudioStream
        (CalculateBufferSize p.getSharedModeEnginePeriod.2.minPeriodInFrames
          p.getSharedModeEnginePeriod.2.maxPeriodInFrames))
  | .avSetMmThreadCharacteristics => decide (p.avSetMmThreadCharacteristics = nullptr)
  | .start => FAILED p.start

/-- The handshake calls of a trace, in the order they were made. -/
def handshake (t : List Event) : List Step :=
  t.filterMap Event.step

/-- The number of environment-initialise calls of a trace that succeeded. -/
def successfulInitialize (t : List Event) : Nat :=
  t.countP fun e => match e with
    | .coInitialize hr => !FAILED hr
    | _ => false

/-- The number of environment-uninitialise calls of a trace. -/
def uninitializeCalls (t : List Event) : Nat :=
  t.count .coUninit

/-- A result of `Start` that is an error. -/
def isError (r : Except WindowsError MinimumLatencyAudioClient) : Bool :=
  match r with
  | .error _ => true
  | .ok _ => false

/-- The status code `S_OK`. -/
def S_OK : HRESULT := 0

/-- The status code `E_FAIL`, 0x80004005 read as a signed 32-bit number. -/
def E_FAIL : HRESULT := -2147467259

/-- The status code `E_OUTOFMEMORY`, 0x8007000E read as a signed 32-bit number. -/
def E_OUTOFMEMORY : HRESULT := -2147024882

/-- A platform on which every call succeeds. -/
def platformOk : Platform where
  coInitialize := S_OK
  coCreateInstance := (S_OK, 0x1000)
  getDefaultAudioEndpoint := (S_OK, 0x2000)
  activate := (S_OK, 0x3000)
  getMixFormat := (S_OK, 0x4000)
  getSharedModeEnginePeriod := (S_OK, ⟨480, 16, 128, 1024⟩)
  initializeSharedAudioStream := fun _ => S_OK
  avSetMmThreadCharacteristics := 0x5000
  start := S_OK
  lastError := fun _ => 0

/-- A platform on which the engine-period query fails with `E_FAIL`, the earlier
calls having succeeded. -/
def platformPeriodFails : Platform :=
  { platformOk with getSharedModeEnginePeriod := (E_FAIL, ⟨0, 0, 0, 0⟩) }

/-- A platform on which the environment initialisation fails with the status `hr`
and leaves the thread's last-error value at 0. -/
def platformInitFails (hr : HRESULT) : Platform :=
  { platformOk with coInitialize := hr }

/-- A platform on which the stream initialisation fails with `E_FAIL` whatever the
buffer size, the thread's last-error value being 87 throughout. -/
def platformStreamFails : Platform :=
  { platformOk with initializeSharedAudioStream := fun _ => E_FAIL, lastError := fun _ => 87 }

/-- The platform calls `Uninitialise` makes for a handle: none when it is empty, the
release of its client followed by the freeing of its format otherwise. -/
def releaseCalls (h : MinimumLatencyAudioClient) : List Event :=
  if h.m_pAudioClient = nullptr then []
  else [.release h.m_pAudioClient, .coTaskMemFree h.m_pFormat]

/-- A memory whose object at address 0 holds a client and a format, whose object at
address 1 holds another pair, and whose other objects are empty. -/
def memTwo : Mem where
  obj := fun a => if a = 0 then ⟨0x3000, 0x4000⟩ else if a = 1 then ⟨0x3100, 0x4100⟩ else ⟨0, 0⟩
  trace := []

/-! ## Theorems: buffer-size policy -/

/-- The policy stays within `UINT32`: on 32-bit arguments its result is one of the two
arguments or 512, so the arithmetic never wraps. -/
theorem calculateBufferSize_lt (minPeriod maxPeriod : UINT32) (h1 : minPeriod < 2 ^ 32)
    (h2 : maxPeriod < 2 ^ 32) : CalculateBufferSize minPeriod maxPeriod < 2 ^ 32 := by
  unfold CalculateBufferSize UINT32 at *
  omega

/-- C1: for `minPeriod ≤ maxPeriod`, `CalculateBufferSize minPeriod maxPeriod` is
`clamp(512, minPeriod, maxPeriod)`: 512 when `minPeriod ≤ 512 ≤ maxPeriod`,
`minPeriod` when `512 < minPeriod`, `maxPeriod` when `maxPeriod < 512`. -/
theorem calculateBufferSize_eq_clamp (minPeriod maxPeriod : UINT32)
    (h : minPeriod ≤ maxPeriod) :
    CalculateBufferSize minPeriod maxPeriod = clamp 512 minPeriod maxPeriod ∧
    (minPeriod ≤ 512 ∧ 512 ≤ maxPeriod → CalculateBufferSize minPeriod maxPeriod = 512) ∧
    (512 < minPeriod → CalculateBufferSize minPeriod maxPeriod = minPeriod) ∧
    (maxPeriod < 512 → CalculateBufferSize minPeriod maxPeriod = maxPeriod) := by
  unfold CalculateBufferSize clamp UINT32 at *
  refine ⟨?_, ?_, ?_, ?_⟩
  · split_ifs <;> omega
  · intro h1; omega
  · intro h1; omega
  · intro h1; omega

/-- The three cases of C1 at concrete period ranges. -/
theorem calculateBufferSize_eq_clamp_witness :
    ((128 : Nat) ≤ 1024 ∧ CalculateBufferSize 128 1024 = 512) ∧
    ((600 : Nat) ≤ 1024 ∧ CalculateBufferSize 600 1024 = 600) ∧
    ((128 : Nat) ≤ 256 ∧ CalculateBufferSize 128 256 = 256) :=
  ⟨⟨by decide, (calculateBufferSize_eq_clamp 128 1024 (by decide)).2.1 ⟨by decide, by decide⟩⟩,
   ⟨by decide, (calculateBufferSize_eq_clamp 600 1024 (by decide)).2.2.1 (by decide)⟩,
   ⟨by decide, (calculateBufferSize_eq_clamp 128 256 (by decide)).2.2.2 (by decide)⟩⟩

/-- C2, as stated, fails: with `maxPeriod = 100 < 512` and `minPeriod = 300` the
policy returns 300, not `maxPeriod`. -/
theorem calculateBufferSize_inverted_range :
    (100 : Nat) < 512 ∧ CalculateBufferSize 300 100 = 300 ∧ CalculateBufferSize 300 100 ≠ 100 := by
  decide

/-- C2, amended: for `maxPeriod < 512` the policy returns the larger of the two
bounds, which is `maxPeriod` exactly when `minPeriod ≤ maxPeriod`. -/
theorem calculateBufferSize_below_target (minPeriod maxPeriod : UINT32)
    (h : maxPeriod < 512) :
    CalculateBufferSize minPeriod maxPeriod = max minPeriod maxPeriod ∧
    (CalculateBufferSize minPeriod maxPeriod = maxPeriod ↔ minPeriod ≤ maxPeriod) := by
  unfold CalculateBufferSize UINT32 at *
  constructor <;> omega

/-- The amended C2 at the ranges (128, 256) and (300, 100). -/
theorem calculateBufferSize_below_target_witness :
    ((256 : Nat) < 512 ∧ CalculateBufferSize 128 256 = max 128 256) ∧
    ((100 : Nat) < 512 ∧ CalculateBufferSize 300 100 = max 300 100) :=
  ⟨⟨by decide, (calculateBufferSize_below_target 128 256 (by decide)).1⟩,
   ⟨by decide, (calculateBufferSize_below_target 300 100 (by decide)).1⟩⟩

/-! ## Theorems: the handle -/

/-- C7: on a handle holding a client and a format, `Uninitialise` returns, makes
exactly the two calls `Release(client)` and `CoTaskMemFree(format)`, so that the
number of releases of the client and of frees of the format each grow by one,
leaves both fields null and touches no other object; a further `Uninitialise`
or the destructor then returns the memory unchanged, trace included. -/
theorem uninitialise_releases_once (m : Mem) (this : Addr) (h : (m.obj this).full) :
    ∃ m1, Uninitialise this m = some m1 ∧
      m1.trace = m.trace ++
        [.release (m.obj this).m_pAudioClient, .coTaskMemFree (m.obj this).m_pFormat] ∧
      List.count (Event.release (m.obj this).m_pAudioClient) m1.trace =
        List.count (Event.release (m.obj this).m_pAudioClient) m.trace + 1 ∧
      List.count (Event.coTaskMemFree (m.obj this).m_pFormat) m1.trace =
        List.count (Event.coTaskMemFree (m.obj this).m_pFormat) m.trace + 1 ∧
      m1.obj this = ⟨nullptr, nullptr⟩ ∧
      (∀ a, a ≠ this → m1.obj a = m.obj a) ∧
      Uninitialise this m1 = some m1 ∧
      destructor this m1 = some m1 := by
  obtain ⟨hc, hf⟩ := h
  refine ⟨_, by simp only [Uninitialise, if_neg hc, if_neg hf]; rfl, ?_, ?_, ?_, ?_, ?_, ?_, ?_⟩
  · simp [Mem.emit, Mem.setAudioClient, Mem.setFormat]
  · simp [Mem.emit, Mem.setAudioClient, Mem.setFormat, List.count_append]
  · simp [Mem.emit, Mem.setAudioClient, Mem.setFormat, List.count_append]
  · simp [Mem.emit, Mem.setAudioClient, Mem.setFormat]
  · intro a ha
    simp [Mem.emit, Mem.setAudioClient, Mem.setFormat, ha]
  · simp [Uninitialise, Mem.emit, Mem.setAudioClient, Mem.setFormat]
  · simp [destructor, Uninitialise, Mem.emit, Mem.setAudioClient, Mem.setFormat]

/-- C7 at the handle of address 0 of `memTwo`: the client 0x3000 is released, the
format 0x4000 is freed, and a second `Uninitialise` does nothing. -/
theorem uninitialise_releases_once_witness :
    (memTwo.obj 0).full ∧
    ∃ m1, Uninitialise 0 memTwo = some m1 ∧
      m1.trace = [.release 0x3000, .coTaskMemFree 0x4000] ∧
      m1.obj 0 = ⟨nullptr, nullptr⟩ ∧
      Uninitialise 0 m1 = some m1 := by
  refine ⟨by decide, ?_⟩
  obtain ⟨m1, h1, h2, -, -, h3, -, h4, -⟩ := uninitialise_releases_once memTwo 0 (by decide)
  exact ⟨m1, h1, by simpa [memTwo] using h2, h3, h4⟩

/-- C8: move-constructing the object at `this` from a distinct handle `other` that
holds both resources returns, makes no platform call, gives the new handle the
client and the format of the source, leaves both fields of the source null and
every other object as it was; `Uninitialise` or the destructor of the source
then returns the memory unchanged, so it releases nothing. -/
theorem moveConstruct_transfers (m : Mem) (this other : Addr) (hne : this ≠ other)
    (h : (m.obj other).full) :
    ∃ m1, moveConstruct this other m = some m1 ∧
      m1.obj this = m.obj other ∧
      m1.obj other = ⟨nullptr, nullptr⟩ ∧
      m1.trace = m.trace ∧
      (∀ a, a ≠ this → a ≠ other → m1.obj a = m.obj a) ∧
      Uninitialise other m1 = some m1 ∧
      destructor other m1 = some m1 := by
  obtain ⟨hc, hf⟩ := h
  have hne2 : other ≠ this := fun e => hne e.symm
  refine ⟨_, by simp only [moveConstruct, if_neg hc, if_neg hf]; rfl, ?_, ?_, ?_, ?_, ?_, ?_⟩
  · simp [Mem.setAudioClient, Mem.setFormat, hne, hne2]
  · simp [Mem.setAudioClient, Mem.setFormat, hne, hne2]
  · simp [Mem.setAudioClient, Mem.setFormat]
  · intro a ha hb
    simp [Mem.setAudioClient, Mem.setFormat, ha, hb]
  · simp [Uninitialise, Mem.setAudioClient, Mem.setFormat, hne, hne2]
  · simp [destructor, Uninitialise, Mem.setAudioClient, Mem.setFormat, hne, hne2]

/-- C8 at `memTwo`: a new handle at address 2 is move-constructed from the handle at
address 0. -/
theorem moveConstruct_transfers_witness :
    (2 : Addr) ≠ 0 ∧ (memTwo.obj 0).full ∧
    ∃ m1, moveConstruct 2 0 memTwo = some m1 ∧
      m1.obj 2 = memTwo.obj 0 ∧
      m1.obj 0 = ⟨nullptr, nullptr⟩ ∧
      m1.trace = memTwo.trace ∧
      (∀ a, a ≠ 2 → a ≠ 0 → m1.obj a = memTwo.obj a) ∧
      Uninitialise 0 m1 = some m1 ∧
      destructor 0 m1 = some m1 :=
  ⟨by decide, by decide, moveConstruct_transfers memTwo 2 0 (by decide) (by decide)⟩

/-- Move assignment between distinct objects: result, state and trace. -/
theorem operatorAssign_result (m : Mem) (this rhs : Addr) (hne : this ≠ rhs)
    (hd : (m.obj this).paired) (hs : (m.obj rhs).full) :
    ∃ m1, operatorAssign this rhs m = some m1 ∧
      m1.trace = m.trace ++ releaseCalls (m.obj this) ∧
      m1.obj this = m.obj rhs ∧
      m1.obj rhs = ⟨nullptr, nullptr⟩ ∧
      (∀ a, a ≠ this → a ≠ rhs → m1.obj a = m.obj a) := by
  obtain ⟨hc, hf⟩ := hs
  have hne2 : rhs ≠ this := fun e => hne e.symm
  rcases hd with ⟨dc, df⟩ | ⟨dc, df⟩
  · refine ⟨_, by simp only [operatorAssign, Uninitialise, if_neg hc, if_neg hf, if_neg dc,
        if_neg df]; rfl, ?_, ?_, ?_, ?_⟩
    · simp [releaseCalls, Mem.emit, Mem.setAudioClient, Mem.setFormat, dc]
    · simp [Mem.emit, Mem.setAudioClient, Mem.setFormat, hne, hne2]
    · simp [Mem.emit, Mem.setAudioClient, Mem.setFormat, hne, hne2]
    · intro a ha hb
      simp [Mem.emit, Mem.setAudioClient, Mem.setFormat, ha, hb]
  · refine ⟨_, by simp only [operatorAssign, Uninitialise, if_neg hc, if_neg hf, if_pos dc,
        if_pos df]; rfl, ?_, ?_, ?_, ?_⟩
    · simp [releaseCalls, Mem.setAudioClient, Mem.setFormat, dc]
    · simp [Mem.setAudioClient, Mem.setFormat, hne, hne2]
    · simp [Mem.setAudioClient, Mem.setFormat, hne, hne2]
    · intro a ha hb
      simp [Mem.setAudioClient, Mem.setFormat, ha, hb]

/-- C9: move-assigning to the object at `this` (empty or holding a pair) from a
distinct handle `rhs` holding both resources returns; the platform calls it
makes are the release of the client and the freeing of the format the
destination held, so that the number of releases of that client and of frees of
that format each grow by one, and it makes no call if the destination was empty;
afterwards the destination holds the client and the format of the source, the
source has both fields null and every other object is as it was. The resources
of the source, being other resources than those of the destination, are not
released: the numbers of their releases and frees stay the same. -/
theorem operatorAssign_transfers (m : Mem) (this rhs : Addr) (hne : this ≠ rhs)
    (hd : (m.obj this).paired) (hs : (m.obj rhs).full) :
    ∃ m1, operatorAssign this rhs m = some m1 ∧
      m1.trace = m.trace ++ releaseCalls (m.obj this) ∧
      ((m.obj this).empty → m1.trace = m.trace) ∧
      ((m.obj this).full →
        m1.trace = m.trace ++
          [.release (m.obj this).m_pAudioClient, .coTaskMemFree (m.obj this).m_pFormat] ∧
        List.count (Event.release (m.obj this).m_pAudioClient) m1.trace =
          List.count (Event.release (m.obj this).m_pAudioClient) m.trace + 1 ∧
        List.count (Event.coTaskMemFree (m.obj this).m_pFormat) m1.trace =
          List.count (Event.coTaskMemFree (m.obj this).m_pFormat) m.trace + 1) ∧
      ((m.obj rhs).m_pAudioClient ≠ (m.obj this).m_pAudioClient →
        List.count (Event.release (m.obj rhs).m_pAudioClient) m1.trace =
          List.count (Event.release (m.obj rhs).m_pAudioClient) m.trace) ∧
      ((m.obj rhs).m_pFormat ≠ (m.obj this).m_pFormat →
        List.count (Event.coTaskMemFree (m.obj rhs).m_pFormat) m1.trace =
          List.count (Event.coTaskMemFree (m.obj rhs).m_pFormat) m.trace) ∧
      m1.obj this = m.obj rhs ∧
      m1.obj rhs = ⟨nullptr, nullptr⟩ ∧
      (∀ a, a ≠ this → a ≠ rhs → m1.obj a = m.obj a) := by
  obtain ⟨m1, h1, h2, h3, h4, h5⟩ := operatorAssign_result m this rhs hne hd hs
  refine ⟨m1, h1, h2, ?_, ?_, ?_, ?_, h3, h4, h5⟩
  · intro he
    rw [h2]
    simp [releaseCalls, he.1]
  · intro hfull
    rw [h2]
    simp [releaseCalls, hfull.1, List.count_append]
  · intro hx
    rw [h2]
    unfold releaseCalls
    split_ifs <;> simp [List.count_append, List.count_cons, hx]
  · intro hx
    rw [h2]
    unfold releaseCalls
    split_ifs <;> simp [List.count_append, List.count_cons, hx]

/-- C9 at `memTwo`: the handle at address 1, which holds a pair, is assigned from the
handle at address 0; the pair of address 1 is released and that of address 0 moves. -/
theorem operatorAssign_transfers_witness :
    (1 : Addr) ≠ 0 ∧ (memTwo.obj 1).paired ∧ (memTwo.obj 0).full ∧
    ∃ m1, operatorAssign 1 0 memTwo = some m1 ∧
      m1.trace = [.release 0x3100, .coTaskMemFree 0x4100] ∧
      m1.obj 1 = ⟨0x3000, 0x4000⟩ ∧
      m1.obj 0 = ⟨nullptr, nullptr⟩ := by
  refine ⟨by decide, by decide, by decide, ?_⟩
  obtain ⟨m1, h1, h2, -, -, -, -, h3, h4, -⟩ :=
    operatorAssign_transfers memTwo 1 0 (by decide) (by decide) (by decide)
  exact ⟨m1, h1, by simpa [releaseCalls, memTwo] using h2, by simpa [memTwo] using h3, h4⟩

/-- `Uninitialise` keeps every handle of the memory paired. -/
theorem uninitialise_paired (m m1 : Mem) (this : Addr) (hinv : ∀ a, (m.obj a).paired)
    (hm : Uninitialise this m = some m1) : ∀ a, (m1.obj a).paired := by
  intro a
  unfold Uninitialise at hm
  split_ifs at hm with h1 h2 h3
  · simp only [Option.some.injEq] at hm
    subst hm
    exact hinv a
  · simp only [Option.some.injEq] at hm
    subst hm
    by_cases ha : a = this
    · subst ha
      right
      simp [MinimumLatencyAudioClient.empty, Mem.emit, Mem.setAudioClient, Mem.setFormat]
    · have := hinv a
      simpa [Mem.emit, Mem.setAudioClient, Mem.setFormat, ha] using this

/-- C10: paired presence is preserved. In a memory where every handle other than
the one under construction has both fields non-null or both null, move
construction of `this` from `other` leaves every handle paired when it returns,
and it returns exactly when the source holds both resources; if `this` is paired
too, move assignment of `this` from `other` (the same object or another one),
`Uninitialise` and the destructor leave every handle paired; the latter two
always return and the assignment returns exactly when the source holds both
resources. -/
theorem paired_presence_preserved (m : Mem) (this other : Addr)
    (hinv : ∀ a, a ≠ this → (m.obj a).paired) :
    (∀ m1, moveConstruct this other m = some m1 → ∀ a, (m1.obj a).paired) ∧
    ((moveConstruct this other m).isSome ↔ (m.obj other).full) ∧
    ((m.obj this).paired →
      (∀ m1, operatorAssign this other m = some m1 → ∀ a, (m1.obj a).paired) ∧
      (∀ m1, Uninitialise this m = some m1 → ∀ a, (m1.obj a).paired) ∧
      (∀ m1, destructor this m = some m1 → ∀ a, (m1.obj a).paired) ∧
      ((operatorAssign this other m).isSome ↔ (m.obj other).full) ∧
      (Uninitialise this m).isSome ∧
      (destructor this m).isSome) := by
  refine ⟨?_, ?_, ?_⟩
  · intro m1 hm a
    unfold moveConstruct at hm
    split_ifs at hm with h1 h2
    simp only [Option.some.injEq] at hm
    subst hm
    by_cases hb : a = other
    · subst hb
      right
      by_cases hc : a = this <;>
        simp [MinimumLatencyAudioClient.empty, Mem.setAudioClient, Mem.setFormat, hc]
    · by_cases hc : a = this
      · subst hc
        left
        simpa [MinimumLatencyAudioClient.full, Mem.setAudioClient, Mem.setFormat, hb] using
          And.intro h1 h2
      · have := hinv a hc
        simpa [Mem.setAudioClient, Mem.setFormat, hb, hc] using this
  · unfold moveConstruct MinimumLatencyAudioClient.full
    split_ifs with h1 h2 <;> simp_all
  · intro hthis
    have hall : ∀ a, (m.obj a).paired := by
      intro a
      by_cases ha : a = this
      · subst ha; exact hthis
      · exact hinv a ha
    have hun : (Uninitialise this m).isSome := by
      unfold Uninitialise
      rcases hthis with ⟨dc, df⟩ | ⟨dc, df⟩
      · simp [if_neg dc, if_neg df]
      · simp [if_pos dc, if_pos df]
    refine ⟨?_, fun m1 hm => uninitialise_paired m m1 this hall hm,
      fun m1 hm => uninitialise_paired m m1 this hall hm, ?_, hun, hun⟩
    · intro m1 hm a
      unfold operatorAssign at hm
      split_ifs at hm with h1 h2
      cases hu : Uninitialise this m with
      | none => simp [hu] at hm
      | some mu =>
        simp only [hu, Option.some.injEq] at hm
        subst hm
        have hmu := uninitialise_paired m mu this hall hu
        by_cases hb : a = other
        · subst hb
          right
          by_cases hc : a = this <;>
            simp [MinimumLatencyAudioClient.empty, Mem.setAudioClient, Mem.setFormat, hc]
        · by_cases hc : a = this
          · subst hc
            have hne : other ≠ a := fun e => hb e.symm
            have hother : mu.obj other = m.obj other := by
              unfold Uninitialise at hu
              split_ifs at hu <;> simp only [Option.some.injEq] at hu <;> subst hu <;>
                simp [Mem.emit, Mem.setAudioClient, Mem.setFormat, hne]
            left
            simpa [MinimumLatencyAudioClient.full, Mem.setAudioClient, Mem.setFormat, hb, hne,
              hother] using And.intro h1 h2
          · have := hmu a
            simpa [Mem.setAudioClient, Mem.setFormat, hb, hc] using this
    · unfold operatorAssign MinimumLatencyAudioClient.full
      cases hu : Uninitialise this m with
      | none => simp [hu] at hun
      | some mu => split_ifs with h1 h2 <;> simp_all

/-- C10 at `memTwo`: construction of a new handle at address 2 from the handle at
address 0, assignment of the handle at address 1 from the one at address 0,
assignment of the handle at address 0 from itself, and `Uninitialise` of the
handle at address 1. -/
theorem paired_presence_preserved_witness :
    (∀ a, (memTwo.obj a).paired) ∧
    (∃ m1, moveConstruct 2 0 memTwo = some m1 ∧ ∀ a, (m1.obj a).paired) ∧
    (∃ m1, operatorAssign 1 0 memTwo = some m1 ∧ ∀ a, (m1.obj a).paired) ∧
    (∃ m1, operatorAssign 0 0 memTwo = some m1 ∧ ∀ a, (m1.obj a).paired) ∧
    (∃ m1, Uninitialise 1 memTwo = some m1 ∧ ∀ a, (m1.obj a).paired) := by
  have hall : ∀ a, (memTwo.obj a).paired := by
    intro a
    by_cases h0 : a = 0
    · subst h0; decide
    · by_cases h1 : a = 1
      · subst h1; decide
      · right; simp [MinimumLatencyAudioClient.empty, memTwo, h0, h1]
  have c2 := paired_presence_preserved memTwo 2 0 (fun a _ => hall a)
  have c1 := paired_presence_preserved memTwo 1 0 (fun a _ => hall a)
  have c0 := paired_presence_preserved memTwo 0 0 (fun a _ => hall a)
  refine ⟨hall, ?_, ?_, ?_, ?_⟩
  · obtain ⟨m1, hm⟩ := Option.isSome_iff_exists.mp (c2.2.1.mpr (by decide))
    exact ⟨m1, hm, c2.1 m1 hm⟩
  · obtain ⟨m1, hm⟩ := Option.isSome_iff_exists.mp ((c1.2.2 (hall 1)).2.2.2.1.mpr (by decide))
    exact ⟨m1, hm, (c1.2.2 (hall 1)).1 m1 hm⟩
  · obtain ⟨m1, hm⟩ := Option.isSome_iff_exists.mp ((c0.2.2 (hall 0)).2.2.2.1.mpr (by decide))
    exact ⟨m1, hm, (c0.2.2 (hall 0)).1 m1 hm⟩
  · obtain ⟨m1, hm⟩ := Option.isSome_iff_exists.mp (c1.2.2 (hall 1)).2.2.2.2.1
    exact ⟨m1, hm, (c1.2.2 (hall 1)).2.1 m1 hm⟩

/-! ## Theorems: the start-up handshake -/

/-- The destructors run at scope exit make no handshake call. -/
theorem handshake_scopeExit (a b c : Ptr) : List.filterMap Event.step (scopeExit a b c) = [] := by
  unfold scopeExit comPtrDtor
  split_ifs <;> simp [Event.step]

/-- The destructors run at scope exit only release interface pointers. -/
theorem scopeExit_release (a b c : Ptr) : ∀ e ∈ scopeExit a b c, ∃ q, e = Event.release q := by
  unfold scopeExit comPtrDtor
  intro e he
  split_ifs at he <;> simp at he <;> aesop

/-- Every run of `Start` is a sequence of handshake calls followed by the releases
made at scope exit, and the answer recorded in each call fails exactly when the
platform fails that step. -/
theorem start_trace_shape (p : Platform) :
    ∃ calls cleanup, (Start p).trace = calls ++ cleanup ∧
      calls.map Event.step = (handshake (Start p).trace).map some ∧
      calls.map Event.failed = (handshake (Start p).trace).map p.failed ∧
      ∀ e ∈ cleanup, ∃ q, e = Event.release q := by
  by_cases h1 : FAILED p.coInitialize = true
  · refine ⟨_, _, by simp only [Start, h1, if_true, if_false, returnUnexpected]; rfl, ?_, ?_,
      scopeExit_release _ _ _⟩ <;>
    simp [Start, h1, returnUnexpected, handshake, handshake_scopeExit, Event.step,
      Event.failed, Platform.failed]
  by_cases h2 : FAILED p.coCreateInstance.1 = true
  · refine ⟨_, _, by simp only [Start, h1, h2, if_true, if_false, returnUnexpected]; rfl, ?_, ?_,
      scopeExit_release _ _ _⟩ <;>
    simp [Start, h1, h2, returnUnexpected, handshake, handshake_scopeExit, Event.step,
      Event.failed, Platform.failed]
  by_cases h3 : FAILED p.getDefaultAudioEndpoint.1 = true
  · refine ⟨_, _, by simp only [Start, h1, h2, h3, if_true, if_false, returnUnexpected]; rfl,
      ?_, ?_,
      scopeExit_release _ _ _⟩ <;>
    simp [Start, h1, h2, h3, returnUnexpected, handshake, handshake_scopeExit, Event.step,
      Event.failed, Platform.failed]
  by_cases h4 : FAILED p.activate.1 = true
  · refine ⟨_, _, by simp only [Start, h1, h2, h3, h4, if_true, if_false, returnUnexpected]; rfl,
      ?_, ?_,
      scopeExit_release _ _ _⟩ <;>
    simp [Start, h1, h2, h3, h4, returnUnexpected, handshake, handshake_scopeExit, Event.step,
      Event.failed, Platform.failed]
  by_cases h5 : FAILED p.getMixFormat.1 = true
  · refine ⟨_, _, by simp only [Start, h1, h2, h3, h4, h5, if_true, if_false, returnUnexpected]; rfl,
      ?_, ?_,
      scopeExit_release _ _ _⟩ <;>
    simp [Start, h1, h2, h3, h4, h5, returnUnexpected, handshake, handshake_scopeExit, Event.step,
      Event.failed, Platform.failed]
  by_cases h6 : FAILED p.getSharedModeEnginePeriod.1 = true
  · refine ⟨_, _, by simp only [Start, h1, h2, h3, h4, h5, h6, if_true, if_false, returnUnexpected]; rfl,
      ?_, ?_,
      scopeExit_release _ _ _⟩ <;>
    simp [Start, h1, h2, h3, h4, h5, h6, returnUnexpected, handshake, handshake_scopeExit,
      Event.step,
      Event.failed, Platform.failed]
  by_cases h7 : FAILED (p.initializeSharedAudioStream (CalculateBufferSize
      p.getSharedModeEnginePeriod.2.minPeriodInFrames
      p.getSharedModeEnginePeriod.2.maxPeriodInFrames)) = true
  · refine ⟨_, _, by simp only [Start, h1, h2, h3, h4, h5, h6, h7, if_true, if_false, returnUnexpected]; rfl,
      ?_, ?_,
      scopeExit_release _ _ _⟩ <;>
    simp [Start, h1, h2, h3, h4, h5, h6, h7, returnUnexpected, handshake, handshake_scopeExit,
      Event.step,
      Event.failed, Platform.failed]
  by_cases h8 : p.avSetMmThreadCharacteristics = nullptr
  · refine ⟨_, _, by simp only [Start, h1, h2, h3, h4, h5, h6, h7, h8, if_true, if_false, returnUnexpected]; rfl,
      ?_, ?_,
      scopeExit_release _ _ _⟩ <;>
    simp [Start, h1, h2, h3, h4, h5, h6, h7, h8, returnUnexpected, handshake, handshake_scopeExit,
      Event.step,
      Event.failed, Platform.failed]
  by_cases h9 : FAILED p.start = true
  · refine ⟨_, _, by simp only [Start, h1, h2, h3, h4, h5, h6, h7, h8, h9, if_true, if_false, returnUnexpected]; rfl,
      ?_, ?_,
      scopeExit_release _ _ _⟩ <;>
    simp [Start, h1, h2, h3, h4, h5, h6, h7, h8, h9, returnUnexpected, handshake,
      handshake_scopeExit, Event.step,
      Event.failed, Platform.failed]
  refine ⟨_, _, by simp only [Start, h1, h2, h3, h4, h5, h6, h7, h8, h9, if_true, if_false]; rfl,
    ?_, ?_, scopeExit_release _ _ _⟩ <;>
  simp [Start, h1, h2, h3, h4, h5, h6, h7, h8, h9, handshake, handshake_scopeExit, Event.step,
    Event.failed, Platform.failed]

/-- C3: for every behaviour of the platform, the handshake calls `Start` makes are
the calls of the fixed order up to and including the first one the platform
fails (all nine when none fails), hence a prefix of the fixed order; the other
calls of the run are the releases of interface pointers at scope exit; `Start`
returns an error exactly when one of the calls it made failed, which is exactly
when the platform fails some call; and the stream is started only after the
thread-characteristics request returned a non-null task handle. -/
theorem start_call_order (p : Platform) :
    handshake (Start p).trace <+: fixedOrder ∧
    handshake (Start p).trace = fixedOrder.take (fixedOrder.findIdx p.failed + 1) ∧
    (∃ calls cleanup, (Start p).trace = calls ++ cleanup ∧
      calls.map Event.step = (handshake (Start p).trace).map some ∧
      calls.map Event.failed = (handshake (Start p).trace).map p.failed ∧
      ∀ e ∈ cleanup, ∃ q, e = Event.release q) ∧
    (isError (Start p).result = true ↔ ∃ s ∈ handshake (Start p).trace, p.failed s = true) ∧
    (isError (Start p).result = true ↔ ∃ s, p.failed s = true) ∧
    (Step.start ∈ handshake (Start p).trace → p.avSetMmThreadCharacteristics ≠ nullptr) := by
  have rest : handshake (Start p).trace <+: fixedOrder ∧
      handshake (Start p).trace = fixedOrder.take (fixedOrder.findIdx p.failed + 1) ∧
      (isError (Start p).result = true ↔ ∃ s ∈ handshake (Start p).trace, p.failed s = true) ∧
      (isError (Start p).result = true ↔ ∃ s, p.failed s = true) ∧
      (Step.start ∈ handshake (Start p).trace → p.avSetMmThreadCharacteristics ≠ nullptr) := by
    by_cases h1 : FAILED p.coInitialize = true
    · simp [Start, h1, returnUnexpected, handshake, handshake_scopeExit, Event.step,
        fixedOrder, Platform.failed, List.findIdx_cons, isError]
      exact ⟨Step.coInitialize, rfl⟩
    by_cases h2 : FAILED p.coCreateInstance.1 = true
    · simp [Start, h1, h2, returnUnexpected, handshake, handshake_scopeExit, Event.step,
        fixedOrder, Platform.failed, List.findIdx_cons, isError]
      exact ⟨Step.coCreateInstance, rfl⟩
    by_cases h3 : FAILED p.getDefaultAudioEndpoint.1 = true
    · simp [Start, h1, h2, h3, returnUnexpected, handshake, handshake_scopeExit, Event.step,
        fixedOrder, Platform.failed, List.findIdx_cons, isError]
      exact ⟨Step.getDefaultAudioEndpoint, rfl⟩
    by_cases h4 : FAILED p.activate.1 = true
    · simp [Start, h1, h2, h3, h4, returnUnexpected, handshake, handshake_scopeExit, Event.step,
        fixedOrder, Platform.failed, List.findIdx_cons, isError]
      exact ⟨Step.activate, rfl⟩
    by_cases h5 : FAILED p.getMixFormat.1 = true
    · simp [Start, h1, h2, h3, h4, h5, returnUnexpected, handshake, handshake_scopeExit, Event.step,
        fixedOrder, Platform.failed, List.findIdx_cons, isError]
      exact ⟨Step.getMixFormat, rfl⟩
    by_cases h6 : FAILED p.getSharedModeEnginePeriod.1 = true
    · simp [Start, h1, h2, h3, h4, h5, h6, returnUnexpected, handshake, handshake_scopeExit, Event.step,
        fixedOrder, Platform.failed, List.findIdx_cons, isError]
      exact ⟨Step.getSharedModeEnginePeriod, rfl⟩
    by_cases h7 : FAILED (p.initializeSharedAudioStream (CalculateBufferSize
        p.getSharedModeEnginePeriod.2.minPeriodInFrames
        p.getSharedModeEnginePeriod.2.maxPeriodInFrames)) = true
    · simp [Start, h1, h2, h3, h4, h5, h6, h7, returnUnexpected, handshake, handshake_scopeExit, Event.step,
        fixedOrder, Platform.failed, List.findIdx_cons, isError]
      exact ⟨Step.initializeSharedAudioStream, rfl⟩
    by_cases h8 : p.avSetMmThreadCharacteristics = nullptr
    · simp [Start, h1, h2, h3, h4, h5, h6, h7, h8, returnUnexpected, handshake, handshake_scopeExit, Event.step,
        fixedOrder, Platform.failed, List.findIdx_cons, isError]
      exact ⟨Step.avSetMmThreadCharacteristics, rfl⟩
    by_cases h9 : FAILED p.start = true
    · simp [Start, h1, h2, h3, h4, h5, h6, h7, h8, h9, returnUnexpected, handshake, handshake_scopeExit, Event.step,
        fixedOrder, Platform.failed, List.findIdx_cons, isError]
      exact ⟨Step.start, rfl⟩
    simp [Start, h1, h2, h3, h4, h5, h6, h7, h8, h9, handshake, handshake_scopeExit, Event.step, fixedOrder,
      Platform.failed, List.findIdx_cons, isError]
    exact fun x => by cases x <;> rfl
  exact ⟨rest.1, rest.2.1, start_trace_shape p, rest.2.2⟩

/-- The destructors run at scope exit never uninitialise the environment. -/
theorem uninitializeCalls_scopeExit (a b c : Ptr) :
    List.count Event.coUninit (scopeExit a b c) = 0 := by
  rw [List.count_eq_zero]
  intro h
  obtain ⟨q, hq⟩ := scopeExit_release a b c _ h
  cases hq

/-- The destructors run at scope exit never free task memory. -/
theorem coTaskMemFree_not_mem_scopeExit (a b c q : Ptr) :
    Event.coTaskMemFree q ∉ scopeExit a b c := by
  intro h
  obtain ⟨r, hr⟩ := scopeExit_release a b c _ h
  cases hr

/-- The destructors run at scope exit do not initialise the environment. -/
theorem successfulInitialize_scopeExit (a b c : Ptr) :
    List.countP (fun e => match e with
      | .coInitialize hr => !FAILED hr
      | _ => false) (scopeExit a b c) = 0 := by
  rw [List.countP_eq_zero]
  intro e he
  obtain ⟨q, hq⟩ := scopeExit_release a b c e he
  subst hq
  simp

/-- No run of `Start` frees the mix-format descriptor: `CoTaskMemFree` is not called
on any exit path. -/
theorem start_never_frees (p : Platform) (q : Ptr) :
    Event.coTaskMemFree q ∉ (Start p).trace := by
  by_cases h1 : FAILED p.coInitialize = true
  · simp [Start, h1, returnUnexpected, coTaskMemFree_not_mem_scopeExit]
  by_cases h2 : FAILED p.coCreateInstance.1 = true
  · simp [Start, h1, h2, returnUnexpected, coTaskMemFree_not_mem_scopeExit]
  by_cases h3 : FAILED p.getDefaultAudioEndpoint.1 = true
  · simp [Start, h1, h2, h3, returnUnexpected, coTaskMemFree_not_mem_scopeExit]
  by_cases h4 : FAILED p.activate.1 = true
  · simp [Start, h1, h2, h3, h4, returnUnexpected, coTaskMemFree_not_mem_scopeExit]
  by_cases h5 : FAILED p.getMixFormat.1 = true
  · simp [Start, h1, h2, h3, h4, h5, returnUnexpected, coTaskMemFree_not_mem_scopeExit]
  by_cases h6 : FAILED p.getSharedModeEnginePeriod.1 = true
  · simp [Start, h1, h2, h3, h4, h5, h6, returnUnexpected, coTaskMemFree_not_mem_scopeExit]
  by_cases h7 : FAILED (p.initializeSharedAudioStream (CalculateBufferSize
      p.getSharedModeEnginePeriod.2.minPeriodInFrames
      p.getSharedModeEnginePeriod.2.maxPeriodInFrames)) = true
  · simp [Start, h1, h2, h3, h4, h5, h6, h7, returnUnexpected, coTaskMemFree_not_mem_scopeExit]
  by_cases h8 : p.avSetMmThreadCharacteristics = nullptr
  · simp [Start, h1, h2, h3, h4, h5, h6, h7, h8, returnUnexpected, coTaskMemFree_not_mem_scopeExit]
  by_cases h9 : FAILED p.start = true
  · simp [Start, h1, h2, h3, h4, h5, h6, h7, h8, h9, returnUnexpected, coTaskMemFree_not_mem_scopeExit]
  simp [Start, h1, h2, h3, h4, h5, h6, h7, h8, h9, coTaskMemFree_not_mem_scopeExit]

/-- C4 fails on the code. When the engine-period query fails after the format
query handed out the descriptor 0x4000, `Start` returns an error, releases the
audio client, the device and the enumerator, and returns without freeing the
descriptor: its trace holds no `CoTaskMemFree`. -/
theorem start_leaks_mix_format :
    (Start platformPeriodFails).result = .error ⟨0⟩ ∧
    (Start platformPeriodFails).trace =
      [.coInitialize 0, .coCreateInstance 0 0x1000, .getDefaultAudioEndpoint 0 0x2000,
       .activate 0 0x3000, .getMixFormat 0 0x4000,
       .getSharedModeEnginePeriod 0x4000 (-2147467259) ⟨0, 0, 0, 0⟩,
       .release 0x3000, .release 0x2000, .release 0x1000] ∧
    Event.getMixFormat 0 0x4000 ∈ (Start platformPeriodFails).trace ∧
    Event.coTaskMemFree 0x4000 ∉ (Start platformPeriodFails).trace := by
  refine ⟨rfl, rfl, ?_, ?_⟩
  · decide
  · decide

/-- C5, as stated, fails: on a platform where every call succeeds the run makes one
successful environment-initialise call and no environment-uninitialise call. -/
theorem start_ok_never_uninitializes :
    isError (Start platformOk).result = false ∧
    successfulInitialize (Start platformOk).trace = 1 ∧
    uninitializeCalls (Start platformOk).trace = 0 ∧
    successfulInitialize (Start platformOk).trace ≠ uninitializeCalls (Start platformOk).trace := by
  decide

/-- C5, amended: no run of `Start` calls environment-uninitialise, and every run
makes one environment-initialise call, so the number of successful initialise
calls is 1 when that call succeeded and 0 when it failed; the two counts agree
only in the runs whose initialise call failed. -/
theorem start_uninitialize_count (p : Platform) :
    uninitializeCalls (Start p).trace = 0 ∧
    successfulInitialize (Start p).trace = (if FAILED p.coInitialize then 0 else 1) ∧
    (successfulInitialize (Start p).trace = uninitializeCalls (Start p).trace ↔
      FAILED p.coInitialize = true) := by
  by_cases h1 : FAILED p.coInitialize = true
  · simp [Start, h1, returnUnexpected, uninitializeCalls, successfulInitialize,
      uninitializeCalls_scopeExit, successfulInitialize_scopeExit, List.countP_cons]
  by_cases h2 : FAILED p.coCreateInstance.1 = true
  · simp [Start, h1, h2, returnUnexpected, uninitializeCalls, successfulInitialize,
      uninitializeCalls_scopeExit, successfulInitialize_scopeExit, List.countP_cons]
  by_cases h3 : FAILED p.getDefaultAudioEndpoint.1 = true
  · simp [Start, h1, h2, h3, returnUnexpected, uninitializeCalls, successfulInitialize,
      uninitializeCalls_scopeExit, successfulInitialize_scopeExit, List.countP_cons]
  by_cases h4 : FAILED p.activate.1 = true
  · simp [Start, h1, h2, h3, h4, returnUnexpected, uninitializeCalls, successfulInitialize,
      uninitializeCalls_scopeExit, successfulInitialize_scopeExit, List.countP_cons]
  by_cases h5 : FAILED p.getMixFormat.1 = true
  · simp [Start, h1, h2, h3, h4, h5, returnUnexpected, uninitializeCalls, successfulInitialize,
      uninitializeCalls_scopeExit, successfulInitialize_scopeExit, List.countP_cons]
  by_cases h6 : FAILED p.getSharedModeEnginePeriod.1 = true
  · simp [Start, h1, h2, h3, h4, h5, h6, returnUnexpected, uninitializeCalls, successfulInitialize,
      uninitializeCalls_scopeExit, successfulInitialize_scopeExit, List.countP_cons]
  by_cases h7 : FAILED (p.initializeSharedAudioStream (CalculateBufferSize
      p.getSharedModeEnginePeriod.2.minPeriodInFrames
      p.getSharedModeEnginePeriod.2.maxPeriodInFrames)) = true
  · simp [Start, h1, h2, h3, h4, h5, h6, h7, returnUnexpected, uninitializeCalls, successfulInitialize,
      uninitializeCalls_scopeExit, successfulInitialize_scopeExit, List.countP_cons]
  by_cases h8 : p.avSetMmThreadCharacteristics = nullptr
  · simp [Start, h1, h2, h3, h4, h5, h6, h7, h8, returnUnexpected, uninitializeCalls, successfulInitialize,
      uninitializeCalls_scopeExit, successfulInitialize_scopeExit, List.countP_cons]
  by_cases h9 : FAILED p.start = true
  · simp [Start, h1, h2, h3, h4, h5, h6, h7, h8, h9, returnUnexpected, uninitializeCalls, successfulInitialize,
      uninitializeCalls_scopeExit, successfulInitialize_scopeExit, List.countP_cons]
  simp [Start, h1, h2, h3, h4, h5, h6, h7, h8, h9, uninitializeCalls, successfulInitialize,
    uninitializeCalls_scopeExit, successfulInitialize_scopeExit, List.countP_cons]

/-- C6, as stated, fails: two runs whose environment-initialise call fails with the
different status codes `E_FAIL` and `E_OUTOFMEMORY`, the thread's last-error
value being 0 in both, return the same error value, built from that 0. -/
theorem start_error_ignores_hresult :
    FAILED E_FAIL = true ∧ FAILED E_OUTOFMEMORY = true ∧ E_FAIL ≠ E_OUTOFMEMORY ∧
    (Start (platformInitFails E_FAIL)).result = .error ⟨0⟩ ∧
    (Start (platformInitFails E_OUTOFMEMORY)).result = .error ⟨0⟩ ∧
    (Start (platformInitFails E_FAIL)).result =
      (Start (platformInitFails E_OUTOFMEMORY)).result := by
  refine ⟨by decide, by decide, by decide, rfl, rfl, rfl⟩

/-- The error `Start` returns when `s` is the first call the platform fails. -/
theorem start_error_of_first_failure (p : Platform) (s : Step)
    (h : fixedOrder.find? p.failed = some s) :
    (Start p).result = .error { lastError := p.lastError s } := by
  by_cases h1 : FAILED p.coInitialize = true
  · simp [fixedOrder, Platform.failed, List.find?, h1] at h
    subst h
    simp [Start, h1, returnUnexpected]
  by_cases h2 : FAILED p.coCreateInstance.1 = true
  · simp [fixedOrder, Platform.failed, List.find?, h1, h2] at h
    subst h
    simp [Start, h1, h2, returnUnexpected]
  by_cases h3 : FAILED p.getDefaultAudioEndpoint.1 = true
  · simp [fixedOrder, Platform.failed, List.find?, h1, h2, h3] at h
    subst h
    simp [Start, h1, h2, h3, returnUnexpected]
  by_cases h4 : FAILED p.activate.1 = true
  · simp [fixedOrder, Platform.failed, List.find?, h1, h2, h3, h4] at h
    subst h
    simp [Start, h1, h2, h3, h4, returnUnexpected]
  by_cases h5 : FAILED p.getMixFormat.1 = true
  · simp [fixedOrder, Platform.failed, List.find?, h1, h2, h3, h4, h5] at h
    subst h
    simp [Start, h1, h2, h3, h4, h5, returnUnexpected]
  by_cases h6 : FAILED p.getSharedModeEnginePeriod.1 = true
  · simp [fixedOrder, Platform.failed, List.find?, h1, h2, h3, h4, h5, h6] at h
    subst h
    simp [Start, h1, h2, h3, h4, h5, h6, returnUnexpected]
  by_cases h7 : FAILED (p.initializeSharedAudioStream (CalculateBufferSize
      p.getSharedModeEnginePeriod.2.minPeriodInFrames
      p.getSharedModeEnginePeriod.2.maxPeriodInFrames)) = true
  · simp [fixedOrder, Platform.failed, List.find?, h1, h2, h3, h4, h5, h6, h7] at h
    subst h
    simp [Start, h1, h2, h3, h4, h5, h6, h7, returnUnexpected]
  by_cases h8 : p.avSetMmThreadCharacteristics = nullptr
  · simp [fixedOrder, Platform.failed, List.find?, h1, h2, h3, h4, h5, h6, h7, h8] at h
    subst h
    simp [Start, h1, h2, h3, h4, h5, h6, h7, h8, returnUnexpected]
  by_cases h9 : FAILED p.start = true
  · simp [fixedOrder, Platform.failed, List.find?, h1, h2, h3, h4, h5, h6, h7, h8, h9] at h
    subst h
    simp [Start, h1, h2, h3, h4, h5, h6, h7, h8, h9, returnUnexpected]
  simp [fixedOrder, Platform.failed, List.find?, h1, h2, h3, h4, h5, h6, h7, h8, h9] at h

/-- C6, amended: when `s` is the first call the platform fails, `Start` returns the
error `WindowsError()` built when that call has returned, that is from the
thread's last-error value at that point; the status code of the failing call is
not handed to it, so any other run that first fails at `s` with the same
last-error value returns the same error, whatever status codes the two runs saw. -/
theorem start_error_value (p : Platform) (s : Step)
    (h : fixedOrder.find? p.failed = some s) :
    (Start p).result = .error { lastError := p.lastError s } ∧
    ∀ q : Platform, fixedOrder.find? q.failed = some s → q.lastError s = p.lastError s →
      (Start q).result = (Start p).result := by
  refine ⟨start_error_of_first_failure p s h, ?_⟩
  intro q hq hl
  rw [start_error_of_first_failure p s h, start_error_of_first_failure q s hq, hl]

/-- The amended C6 on a platform whose stream initialisation fails with `E_FAIL` while
the thread's last-error value is 87. -/
theorem start_error_value_witness :
    fixedOrder.find? platformStreamFails.failed = some .initializeSharedAudioStream ∧
    (Start platformStreamFails).result = .error { lastError := 87 } :=
  ⟨by decide,
   (start_error_value platformStreamFails .initializeSharedAudioStream (by decide)).1⟩

end MinimumLatency
